import Mathlib

/-!
Shallow embedding of the sample-app configuration module
(`examples/deadline/All-In-AWS-Infrastructure-Basic/python/package/config.py`).

The module declares a single class `AppConfig` whose parameterless
constructor assigns six attributes with hardcoded placeholder defaults,
and a module-level instance `config` constructed at load time.
Pure data is embedded directly: the Python `Mapping[str, str]` literal is
an association list, `Optional[str]` is `Option String`, and the two
types imported from the external `aws_rfdk` package are modelled from the
specification's data-model table.
-/

/-- Modelled from the spec: `MongoDbSsplLicenseAcceptance` is imported from
the external `aws_rfdk` package and is not part of the sources; the spec
describes the license-acceptance flag as an enumerated value with an
accepted and a rejected alternative, and the source names the two members
`USER_ACCEPTS_SSPL` and `USER_REJECTS_SSPL`. -/
inductive MongoDbSsplLicenseAcceptance where
  | USER_REJECTS_SSPL
  | USER_ACCEPTS_SSPL
deriving DecidableEq

/-- Modelled from the spec: `UsageBasedLicense` is imported from the
external `aws_rfdk.deadline` package and is not part of the sources; the
spec treats license-descriptor values as opaque values consumed by an
external licensing subsystem, so we model a descriptor by an opaque name. -/
structure UsageBasedLicense where
  licenseName : String
deriving DecidableEq

/-- The configuration record of `config.py`: the class `AppConfig`,
whose constructor assigns exactly these six attributes, with the
annotated types of the source (`Mapping[str, str]`, `str`,
`List[UsageBasedLicense]`, `Optional[str]`, `bool`,
`MongoDbSsplLicenseAcceptance`). -/
structure AppConfig where
  deadline_client_linux_ami_map : List (String × String)
  ubl_certificate_secret_arn : String
  ubl_licenses : List UsageBasedLicense
  key_pair_name : Option String
  deploy_mongo_db : Bool
  accept_sspl_license : MongoDbSsplLicenseAcceptance
deriving DecidableEq

/-- `AppConfig.__init__`: the default constructor. It takes no arguments
(modelled as a `Unit` argument, one per constructor call) and assigns the
six placeholder defaults of the source, in order. -/
def AppConfig.init (_ : Unit) : AppConfig :=
  { deadline_client_linux_ami_map := [("region", "ami-id")]
    ubl_certificate_secret_arn := ""
    ubl_licenses := []
    key_pair_name := some ""
    deploy_mongo_db := false
    accept_sspl_license := MongoDbSsplLicenseAcceptance.USER_REJECTS_SSPL }

/-- The module-level singleton `config: AppConfig = AppConfig()`,
constructed at load time by the default constructor. -/
def config : AppConfig := AppConfig.init ()

/-- The value of one attribute of an `AppConfig` instance, tagged with its
annotated type, as returned by Python attribute access. -/
inductive AttrValue where
  | vMap : List (String × String) → AttrValue
  | vStr : String → AttrValue
  | vLicenses : List UsageBasedLicense → AttrValue
  | vOptStr : Option String → AttrValue
  | vBool : Bool → AttrValue
  | vAccept : MongoDbSsplLicenseAcceptance → AttrValue
deriving DecidableEq

/-- Python attribute access on an `AppConfig` instance: `__init__` assigns
exactly six attributes, so access to any of those six names succeeds and
access to any other name raises `AttributeError` (modelled as `none`). -/
def AppConfig.getattr (c : AppConfig) (name : String) : Option AttrValue :=
  if name = "deadline_client_linux_ami_map" then
    some (AttrValue.vMap c.deadline_client_linux_ami_map)
  else if name = "ubl_certificate_secret_arn" then
    some (AttrValue.vStr c.ubl_certificate_secret_arn)
  else if name = "ubl_licenses" then
    some (AttrValue.vLicenses c.ubl_licenses)
  else if name = "key_pair_name" then
    some (AttrValue.vOptStr c.key_pair_name)
  else if name = "deploy_mongo_db" then
    some (AttrValue.vBool c.deploy_mongo_db)
  else if name = "accept_sspl_license" then
    some (AttrValue.vAccept c.accept_sspl_license)
  else none

/-- Claim C1: every `AppConfig` instance produced by the default
constructor exposes exactly the six fields of the data model, each with
its documented type: a region-to-AMI mapping, a license secret reference
string, a license list, an optional key-pair name, a boolean
database-backend flag, and a license-acceptance flag; the instance is
fully determined by those six components. -/
theorem appConfig_default_exposes_six_fields :
    ∃ (m : List (String × String)) (s : String) (l : List UsageBasedLicense)
      (k : Option String) (b : Bool) (a : MongoDbSsplLicenseAcceptance),
      AppConfig.init () = ⟨m, s, l, k, b, a⟩ :=
  ⟨_, _, _, _, _, _, rfl⟩

/-- Claim C2: the database-backend flag `deploy_mongo_db` of a
default-constructed `AppConfig` equals `false`, selecting the
non-MongoDB (DocumentDB) backend mode by default. -/
theorem appConfig_default_deploy_mongo_db_false :
    (AppConfig.init ()).deploy_mongo_db = false :=
  rfl

/-- Claim C3: the license-acceptance flag `accept_sspl_license` of a
default-constructed `AppConfig` equals the rejection value
`MongoDbSsplLicenseAcceptance.USER_REJECTS_SSPL`. -/
theorem appConfig_default_rejects_sspl :
    (AppConfig.init ()).accept_sspl_license =
      MongoDbSsplLicenseAcceptance.USER_REJECTS_SSPL :=
  rfl

/-- Claim C4: the region-to-AMI mapping `deadline_client_linux_ami_map`
of a default-constructed `AppConfig` contains exactly one entry. -/
theorem appConfig_default_ami_map_single_entry :
    (AppConfig.init ()).deadline_client_linux_ami_map.length = 1 :=
  rfl

/-- Claim C5: the license list `ubl_licenses` of a default-constructed
`AppConfig` is the empty sequence. -/
theorem appConfig_default_ubl_licenses_empty :
    (AppConfig.init ()).ubl_licenses = [] :=
  rfl

/-- Claim C6: under default construction, the constructor and every
access to each of the six fields completes without raising an error:
construction yields a value, and attribute access on each of the six
field names succeeds (is `some`, never the `AttributeError` branch). -/
theorem appConfig_default_access_total :
    (∃ c : AppConfig, AppConfig.init () = c) ∧
    ((AppConfig.init ()).getattr "deadline_client_linux_ami_map").isSome = true ∧
    ((AppConfig.init ()).getattr "ubl_certificate_secret_arn").isSome = true ∧
    ((AppConfig.init ()).getattr "ubl_licenses").isSome = true ∧
    ((AppConfig.init ()).getattr "key_pair_name").isSome = true ∧
    ((AppConfig.init ()).getattr "deploy_mongo_db").isSome = true ∧
    ((AppConfig.init ()).getattr "accept_sspl_license").isSome = true :=
  ⟨⟨AppConfig.init (), rfl⟩, by decide, by decide, by decide, by decide,
    by decide, by decide⟩

/-- Claim C7: default construction is deterministic: any two instances
produced by the default constructor are equal (hence field-wise equal on
all six fields), and the module-level singleton `config` created at load
time is field-wise equal to a freshly default-constructed `AppConfig`. -/
theorem appConfig_construction_deterministic :
    (∀ u v : Unit, AppConfig.init u = AppConfig.init v) ∧
    config.deadline_client_linux_ami_map =
      (AppConfig.init ()).deadline_client_linux_ami_map ∧
    config.ubl_certificate_secret_arn =
      (AppConfig.init ()).ubl_certificate_secret_arn ∧
    config.ubl_licenses = (AppConfig.init ()).ubl_licenses ∧
    config.key_pair_name = (AppConfig.init ()).key_pair_name ∧
    config.deploy_mongo_db = (AppConfig.init ()).deploy_mongo_db ∧
    config.accept_sspl_license = (AppConfig.init ()).accept_sspl_license :=
  ⟨fun _ _ => rfl, rfl, rfl, rfl, rfl, rfl, rfl⟩

/-- Claim C7 witness: the determinism clause applied at the concrete
constructor calls, and the field-wise clauses extracted. -/
theorem appConfig_construction_deterministic_witness :
    AppConfig.init () = AppConfig.init () ∧
    config.deploy_mongo_db = (AppConfig.init ()).deploy_mongo_db :=
  ⟨appConfig_construction_deterministic.1 () (),
    appConfig_construction_deterministic.2.2.2.2.2.1⟩

/-- Claim C8: the optional key-pair name field `key_pair_name` of a
default-constructed `AppConfig` defaults to the empty string, not to the
absent value `none`, even though its declared type is `Option String`. -/
theorem appConfig_default_key_pair_name_empty_string :
    (AppConfig.init ()).key_pair_name = some "" ∧
    (AppConfig.init ()).key_pair_name ≠ none :=
  ⟨rfl, by decide⟩

/-- Claim C9: the license secret reference `ubl_certificate_secret_arn`
of a default-constructed `AppConfig` defaults to the empty string. -/
theorem appConfig_default_secret_arn_empty :
    (AppConfig.init ()).ubl_certificate_secret_arn = "" :=
  rfl

/-- Claim C10: the single placeholder entry of the region-to-AMI mapping
of a default-constructed `AppConfig` maps the key "region" to the value
"ami-id": the mapping is exactly the singleton association, and looking
up "region" yields "ami-id". -/
theorem appConfig_default_ami_map_placeholder :
    (AppConfig.init ()).deadline_client_linux_ami_map =
      [("region", "ami-id")] ∧
    List.lookup "region" (AppConfig.init ()).deadline_client_linux_ami_map =
      some "ami-id" :=
  ⟨rfl, by decide⟩
